import Mathlib

/-!
Shallow embedding of the tadata-python-sdk core (spec ingestion, HTTP error
mapping, deploy orchestration) and proofs of the frozen claims about it.

Conventions of the embedding:
* Python dict/list/str/int/bool/None values are modelled by the `Json` type.
  JSON numbers are modelled as `Int`; no claim depends on float semantics.
* Fallible Python code is modelled with `Except`: the error component is the
  exception that propagates out of the modelled function.
* External collaborators (the `json`/`yaml` parsing libraries, the file
  system, `urllib` path extraction, the HTTP transport) are passed in as
  oracle functions; the code under verification is translated literally.
* Pydantic's lax scalar coercions (e.g. `"1"` to `1`) are abstracted: fields
  declared `str`/`bool`/`int` accept exactly the corresponding `Json`
  constructor.  No claim exercises a coercion corner.
-/

/-- Model of a Python/JSON value. -/
inductive Json where
  | null
  | bool (b : Bool)
  | num (n : Int)
  | str (s : String)
  | arr (elems : List Json)
  | obj (fields : List (String × Json))
deriving Repr

/-- First value bound to `key` in an association list (Python `dict` lookup;
Python dicts have unique keys, so first-match is exact). -/
def lookupKey : List (String × Json) → String → Option Json
  | [], _ => none
  | (k, v) :: rest, key => if k = key then some v else lookupKey rest key

/-- `needle in hay` on strings (Python `in` operator), via char lists so that
the kernel can evaluate it. -/
def strContains (hay needle : String) : Bool :=
  (List.range (hay.toList.length + 1)).any fun i => needle.toList.isPrefixOf (hay.toList.drop i)

/-- Python `str.lower()` (ASCII case folding suffices here). -/
def pyLower (s : String) : String := (s.toList.map Char.toLower).asString

/-- Python `str.startswith`. -/
def strStartsWith (s pre : String) : Bool := pre.toList.isPrefixOf s.toList

/-- Python `str.endswith`. -/
def strEndsWithPy (s suf : String) : Bool := suf.toList.isSuffixOf s.toList

/-- Python `str.rstrip("/")`. -/
def rstripSlash (s : String) : String :=
  ((s.toList.reverse.dropWhile (fun c => c = '/')).reverse).asString

/-- Python `s[:100]` (truncation used in spec-parse error context). -/
def take100 (s : String) : String := (s.toList.take 100).asString

/-! ## errors/exceptions.py -/

namespace Exceptions

/-- `SpecInvalidError` (errors/exceptions.py).  `code` is always
`"spec_invalid"` and `status_code` always 400, so only the varying fields are
carried.  `details` is the `details` argument, restricted to the `Json`
universe; the one raise site whose details is a live response object
(`DeploymentResult.__init__`) stores `none` and is noted there. -/
structure SpecInvalidError where
  message : String
  details : Option Json
deriving Repr

/-- `AuthError` (errors/exceptions.py).  Its `__init__` hard-codes
`status_code=HTTPStatus.UNAUTHORIZED` (401) and `code="auth_error"`; the
model keeps `statusCode` as a field so that theorems can observe it.
`cause` keeps the JSON error data passed as `Exception(str(error_data))`. -/
structure AuthError where
  message : Json
  code : String
  statusCode : Nat
  cause : Option Json
deriving Repr

/-- `AuthError.__init__`: the status code attribute is always 401. -/
def AuthError.make (message : Json) (cause : Option Json) : AuthError :=
  { message := message, code := "auth_error", statusCode := 401, cause := cause }

/-- `ApiError` (errors/exceptions.py): carries the HTTP status it was given
and the error body.  `message` is a `Json` because
`_handle_response_error` binds `error_msg` to the raw value of the body's
`error.message` key, which need not be a string. -/
structure ApiError where
  message : Json
  statusCode : Nat
  body : Json
deriving Repr

/-- `NetworkError` (errors/exceptions.py): message plus the wrapped
underlying transport error (the `cause` argument). -/
structure NetworkError where
  message : String
  cause : String
deriving Repr

end Exceptions

/-- An exception propagating out of the modelled SDK code.  The first five
constructors are the SDK's own taxonomy (plain `ValueError` included); the
last two are third-party exceptions that escape uncaught:
`pydantic.ValidationError` from `MCPAuthConfig.model_validate` in `deploy`,
and `json.JSONDecodeError` from `response.json()`. -/
inductive PyError where
  | valueError (message : String)
  | specInvalid (err : Exceptions.SpecInvalidError)
  | authError (err : Exceptions.AuthError)
  | apiError (err : Exceptions.ApiError)
  | networkError (err : Exceptions.NetworkError)
  | validationError (message : String)
  | jsonDecodeError (message : String)
deriving Repr

/-! ## openapi/source.py -/

/-- `OpenAPIInfo` (openapi/source.py). -/
structure OpenAPIInfo where
  title : String
  version : String
  description : Option String
deriving Repr, DecidableEq

/-- `OpenAPISpec` (openapi/source.py): `model_config = extra="allow"`, so
unknown top-level keys are preserved in `extra` (pydantic's
`__pydantic_extra__`). -/
structure OpenAPISpec where
  openapi : String
  info : OpenAPIInfo
  paths : List (String × Json)
  extra : List (String × Json)
deriving Repr

/-- Pydantic validation of the nested `OpenAPIInfo` model: `title` and
`version` are required strings, `description` an optional string; unknown
keys are ignored (pydantic default `extra="ignore"`). -/
def decodeInfo : Json → Option OpenAPIInfo
  | .obj kvs =>
    match lookupKey kvs "title", lookupKey kvs "version" with
    | some (.str t), some (.str v) =>
      match lookupKey kvs "description" with
      | none => some { title := t, version := v, description := none }
      | some .null => some { title := t, version := v, description := none }
      | some (.str d) => some { title := t, version := v, description := some d }
      | some _ => none
    | _, _ => none
  | _ => none

/-- Keys of `OpenAPISpec`'s declared fields; anything else is an extra. -/
def specFieldKey (k : String) : Bool := k == "openapi" || k == "info" || k == "paths"

/-- `OpenAPISpec.from_dict`: pydantic `model_validate` (declared fields plus
the `validate_openapi_version` field validator, which rejects versions not
starting `"3."`), with every validation failure wrapped as
`SpecInvalidError("Invalid OpenAPI specification: ...", details=data)`.
The exact pydantic error text is abstracted to a short reason string. -/
def OpenAPISpec.from_dict (data : Json) : Except Exceptions.SpecInvalidError OpenAPISpec :=
  let fail := fun (reason : String) =>
    Except.error { message := "Invalid OpenAPI specification: " ++ reason, details := some data }
  match data with
  | .obj kvs =>
    match lookupKey kvs "openapi" with
    | some (.str v) =>
      if strStartsWith v "3." then
        match lookupKey kvs "info" with
        | some i =>
          match decodeInfo i with
          | some info =>
            match lookupKey kvs "paths" with
            | some (.obj p) =>
              .ok { openapi := v, info := info, paths := p,
                    extra := kvs.filter (fun kv => !specFieldKey kv.1) }
            | some _ => fail "paths: not a mapping"
            | none => fail "paths: field required"
          | none => fail "info: invalid"
        | none => fail "info: field required"
      else fail "Only OpenAPI 3.x specifications are supported"
    | some _ => fail "openapi: not a string"
    | none => fail "openapi: field required"
  | _ => fail "input is not a mapping"

/-- `OpenAPISpec.from_json`: `json.loads` (passed as the oracle `jsonLoads`)
then `from_dict`; a parse failure becomes
`SpecInvalidError("Invalid JSON: ...", details={"json_str": json_str[:100]})`. -/
def OpenAPISpec.from_json (jsonLoads : String → Except String Json) (json_str : String) :
    Except Exceptions.SpecInvalidError OpenAPISpec :=
  match jsonLoads json_str with
  | .error e =>
    .error { message := "Invalid JSON: " ++ e,
             details := some (.obj [("json_str", .str (take100 json_str))]) }
  | .ok data => OpenAPISpec.from_dict data

/-- `OpenAPISpec.from_yaml`: `yaml.safe_load` (oracle `yamlLoads`) then
`from_dict`; a parse failure becomes
`SpecInvalidError("Invalid YAML: ...", details={"yaml_str": yaml_str[:100]})`. -/
def OpenAPISpec.from_yaml (yamlLoads : String → Except String Json) (yaml_str : String) :
    Except Exceptions.SpecInvalidError OpenAPISpec :=
  match yamlLoads yaml_str with
  | .error e =>
    .error { message := "Invalid YAML: " ++ e,
             details := some (.obj [("yaml_str", .str (take100 yaml_str))]) }
  | .ok data => OpenAPISpec.from_dict data

/-- Final path component (pathlib `PurePath.name` on an already-resolved
path string). -/
def pathName (p : String) : String :=
  (((p.toList.foldl (fun (acc : List Char × List Char) c =>
      if c = '/' then (acc.1 ++ acc.2.reverse ++ ['/'], []) else (acc.1, c :: acc.2))
      ([], [])).2).reverse).asString

/-- Index of the last occurrence of `c` in `cs`. -/
def lastIdxOf (c : Char) : List Char → Option Nat
  | [] => none
  | x :: rest =>
    match lastIdxOf c rest with
    | some i => some (i + 1)
    | none => if x = c then some 0 else none

/-- pathlib `PurePath.suffix`: the substring of the final component from its
last dot, unless that dot is the first or the last character of the
component (so `".json"` and `"foo."` have an empty suffix). -/
def pathSuffix (p : String) : String :=
  let name := (pathName p).toList
  match lastIdxOf '.' name with
  | none => ""
  | some i => if 0 < i ∧ i + 1 < name.length then (name.drop i).asString else ""

/-- `OpenAPISpec.from_file`: resolve the path (oracle `resolve`, total —
`Path.resolve(strict=False)` does not touch missing files), read it as text
(oracle `readText`, fallible), then dispatch on the lowered pathlib suffix;
the read happens before the extension check, exactly as in the source.
`OSError`/`IOError` from the read and the unsupported-extension case both
yield `SpecInvalidError` carrying the resolved path as
`details={"file_path": ...}`. -/
def OpenAPISpec.from_file (resolve : String → String)
    (readText : String → Except String String)
    (jsonLoads yamlLoads : String → Except String Json) (file_path : String) :
    Except Exceptions.SpecInvalidError OpenAPISpec :=
  let rp := resolve file_path
  match readText rp with
  | .error e =>
    .error { message := "Failed to read file: " ++ e,
             details := some (.obj [("file_path", .str rp)]) }
  | .ok content =>
    if pyLower (pathSuffix rp) = ".json" then
      OpenAPISpec.from_json jsonLoads content
    else if pyLower (pathSuffix rp) = ".yaml" ∨ pyLower (pathSuffix rp) = ".yml" then
      OpenAPISpec.from_yaml yamlLoads content
    else
      .error { message := "Unsupported file extension: " ++ pathSuffix rp ++
                 ". Only .json, .yaml, and .yml files are supported.",
               details := some (.obj [("file_path", .str rp)]) }

/-- Pydantic `model_dump` of `OpenAPIInfo` (no aliases; `None` fields are
emitted as `null`). -/
def dumpInfo (i : OpenAPIInfo) : Json :=
  .obj [("title", .str i.title), ("version", .str i.version),
        ("description", match i.description with | some d => .str d | none => .null)]

/-- Pydantic `model_dump` of `OpenAPISpec` (no aliases): declared fields in
declaration order, then the preserved extra top-level fields. -/
def dumpSpec (s : OpenAPISpec) : Json :=
  .obj ([("openapi", .str s.openapi), ("info", dumpInfo s.info), ("paths", .obj s.paths)] ++ s.extra)

example : strContains (pyLower "Only one of x") "one of" = true := by decide
example : pathSuffix "/x/y.json" = ".json" := by decide
example : pathSuffix "/x/.json" = "" := by decide
example : pathSuffix "/x/archive.tar.YAML" = ".YAML" := by decide
example : pathName "/a/b/c.yml" = "c.yml" := by decide

/-! ## http/schemas.py -/

namespace Schemas

/-- `ValidationError` (http/schemas.py): field-level error detail. -/
structure ValidationError where
  field : String
  message : String
  source : Option String
deriving Repr

/-- `ApiError` (http/schemas.py): the error payload inside the response
envelope.  `code` is the `ErrorCode` enum, kept as its string value and
constrained by `isErrorCode`. -/
structure ApiError where
  code : String
  message : String
  errors : Option (List ValidationError)
  details : Option Json
deriving Repr

/-- Membership in the `ErrorCode` enum. -/
def isErrorCode (s : String) : Bool :=
  s == "VALIDATION_ERROR" || s == "SERVICE_VALIDATION_ERROR" || s == "JSON_PARSE_ERROR" ||
  s == "INVALID_CONTENT_TYPE" || s == "AUTH_ERROR" || s == "NOT_FOUND" || s == "INTERNAL_ERROR"

/-- `AuthConfig` (http/schemas.py; `sdk.py` refers to it as
`MCPAuthConfig`): four pass-through lists with fixed defaults. -/
structure AuthConfig where
  pass_headers : List String
  pass_query_params : List String
  pass_json_body_params : List String
  pass_form_data_params : List String
deriving Repr

/-- The field defaults of `AuthConfig`. -/
def AuthConfig.default : AuthConfig :=
  { pass_headers := ["authorization", "api-key", "api_key", "apikey", "x-api-key", "x-apikey"],
    pass_query_params := ["api-key", "api_key", "apikey"],
    pass_json_body_params := [],
    pass_form_data_params := [] }

/-- Decode a JSON array of strings (pydantic `List[str]`, coercions
abstracted). -/
def decodeStrList : Json → Option (List String)
  | .arr elems => elems.foldr (fun e acc =>
      match e, acc with
      | .str s, some rest => some (s :: rest)
      | _, _ => none) (some [])
  | _ => none

/-- One `AuthConfig` field: `populate_by_name=True`, so the alias is
accepted first, then the field name; a missing key keeps the default. -/
def authField (kvs : List (String × Json)) (alia fieldName : String) (dflt : List String) :
    Except String (List String) :=
  match lookupKey kvs alia with
  | some v => match decodeStrList v with
              | some l => .ok l
              | none => .error (alia ++ ": not a list of strings")
  | none =>
    match lookupKey kvs fieldName with
    | some v => match decodeStrList v with
                | some l => .ok l
                | none => .error (fieldName ++ ": not a list of strings")
    | none => .ok dflt

/-- `AuthConfig.model_validate` (called on the user-supplied `auth_config`
dict in `deploy`); extra keys are ignored (pydantic default), a failure is a
`pydantic.ValidationError`. -/
def AuthConfig.model_validate (j : Json) : Except String AuthConfig :=
  match j with
  | .obj kvs => do
    let h ← authField kvs "passHeaders" "pass_headers" AuthConfig.default.pass_headers
    let q ← authField kvs "passQueryParams" "pass_query_params" AuthConfig.default.pass_query_params
    let b ← authField kvs "passJsonBodyParams" "pass_json_body_params" []
    let f ← authField kvs "passFormDataParams" "pass_form_data_params" []
    .ok { pass_headers := h, pass_query_params := q,
          pass_json_body_params := b, pass_form_data_params := f }
  | _ => .error "auth_config is not a mapping"

/-- `model_dump(by_alias=True)` of `AuthConfig`. -/
def dumpAuthConfig (a : AuthConfig) : Json :=
  .obj [("passHeaders", .arr (a.pass_headers.map .str)),
        ("passQueryParams", .arr (a.pass_query_params.map .str)),
        ("passJsonBodyParams", .arr (a.pass_json_body_params.map .str)),
        ("passFormDataParams", .arr (a.pass_form_data_params.map .str))]

/-- `UpsertDeploymentRequest.model_dump(by_alias=True)` (the POST body):
declared fields under their aliases, `None` fields emitted as `null`. -/
def dumpUpsertDeploymentRequest (spec : OpenAPISpec) (name base_url : Option String)
    (ac : AuthConfig) : Json :=
  .obj [("openApiSpec", dumpSpec spec),
        ("name", match name with | some n => .str n | none => .null),
        ("baseUrl", match base_url with | some b => .str b | none => .null),
        ("authConfig", dumpAuthConfig ac)]

/-- `DeploymentResponseData` (http/schemas.py): `id` required, the rest
optional, `extra="allow"` preserves unknown keys. `created_at` is an
optional datetime; the model keeps the raw string and abstracts datetime
parsing (no claim touches it). -/
structure DeploymentResponseData where
  id : String
  created_at : Option String
  created_by : Option String
  updated_by : Option String
  mcp_server_id : Option String
  open_api_spec_hash : Option String
  mcp_spec_hash : Option String
  status : Option String
  extra : List (String × Json)
deriving Repr

/-- `UpsertDeploymentResponseData` (http/schemas.py). -/
structure UpsertDeploymentResponseData where
  updated : Bool
  deployment : DeploymentResponseData
deriving Repr

/-- `DeploymentResponse` (http/schemas.py): the `ApiResponse` envelope with
`data` overridden; inherits `model_config = ConfigDict(extra="forbid")`. -/
structure DeploymentResponse where
  ok : Bool
  status : Int
  data : Option UpsertDeploymentResponseData
  error : Option ApiError
deriving Repr

/-- Optional string field with `populate_by_name`: missing or `null` gives
`none`, a string gives `some`, anything else is a validation error. -/
def optStrField (kvs : List (String × Json)) (alia fieldName : String) :
    Except String (Option String) :=
  match (lookupKey kvs alia).orElse (fun _ => lookupKey kvs fieldName) with
  | none => .ok none
  | some .null => .ok none
  | some (.str s) => .ok (some s)
  | some _ => .error (fieldName ++ ": not a string")

/-- Keys consumed by `DeploymentResponseData`'s declared fields (aliases and
field names); everything else lands in the `extra="allow"` bag. -/
def deploymentDataFieldKey (k : String) : Bool :=
  k == "id" || k == "createdAt" || k == "created_at" || k == "createdBy" || k == "created_by" ||
  k == "updatedBy" || k == "updated_by" || k == "mcpServerId" || k == "mcp_server_id" ||
  k == "openAPISpecHash" || k == "open_api_spec_hash" || k == "mcpSpecHash" ||
  k == "mcp_spec_hash" || k == "status"

/-- Pydantic validation of `DeploymentResponseData`. -/
def decodeDeploymentResponseData (j : Json) : Except String DeploymentResponseData :=
  match j with
  | .obj kvs =>
    match lookupKey kvs "id" with
    | some (.str i) => do
      let ca ← optStrField kvs "createdAt" "created_at"
      let cb ← optStrField kvs "createdBy" "created_by"
      let ub ← optStrField kvs "updatedBy" "updated_by"
      let ms ← optStrField kvs "mcpServerId" "mcp_server_id"
      let oh ← optStrField kvs "openAPISpecHash" "open_api_spec_hash"
      let mh ← optStrField kvs "mcpSpecHash" "mcp_spec_hash"
      let st ← optStrField kvs "status" "status"
      .ok { id := i, created_at := ca, created_by := cb, updated_by := ub,
            mcp_server_id := ms, open_api_spec_hash := oh, mcp_spec_hash := mh, status := st,
            extra := kvs.filter (fun kv => !deploymentDataFieldKey kv.1) }
    | _ => .error "deployment.id: required string"
  | _ => .error "deployment: not a mapping"

/-- Pydantic validation of `UpsertDeploymentResponseData` (extras ignored). -/
def decodeUpsertData (j : Json) : Except String UpsertDeploymentResponseData :=
  match j with
  | .obj kvs =>
    match lookupKey kvs "updated" with
    | some (.bool u) =>
      match lookupKey kvs "deployment" with
      | some d => do
        let dep ← decodeDeploymentResponseData d
        .ok { updated := u, deployment := dep }
      | none => .error "deployment: field required"
    | _ => .error "updated: required bool"
  | _ => .error "data: not a mapping"

/-- Pydantic validation of the nested `ApiError` payload. -/
def decodeApiErrorBody (j : Json) : Except String ApiError :=
  match j with
  | .obj kvs =>
    match lookupKey kvs "code", lookupKey kvs "message" with
    | some (.str c), some (.str m) =>
      if isErrorCode c then
        match lookupKey kvs "errors" with
        | none => .ok { code := c, message := m, errors := none, details := lookupKey kvs "details" }
        | some .null => .ok { code := c, message := m, errors := none, details := lookupKey kvs "details" }
        | some (.arr es) =>
          let step := fun e (acc : Option (List ValidationError)) =>
            match e, acc with
            | Json.obj ekvs, some rest =>
              match lookupKey ekvs "field", lookupKey ekvs "message" with
              | some (.str f), some (.str msg) =>
                match lookupKey ekvs "source" with
                | none => some ({ field := f, message := msg, source := none } :: rest)
                | some .null => some ({ field := f, message := msg, source := none } :: rest)
                | some (.str s) => some ({ field := f, message := msg, source := some s } :: rest)
                | some _ => none
              | _, _ => none
            | _, _ => none
          match es.foldr step (some []) with
          | some l => .ok { code := c, message := m, errors := some l, details := lookupKey kvs "details" }
          | none => .error "error.errors: invalid"
        | some _ => .error "error.errors: not a list"
      else .error "error.code: not a valid ErrorCode"
    | _, _ => .error "error.code/error.message: required strings"
  | _ => .error "error: not a mapping"

/-- Keys allowed at the top level of the envelope (`extra="forbid"`). -/
def envelopeFieldKey (k : String) : Bool :=
  k == "ok" || k == "status" || k == "data" || k == "error"

/-- `DeploymentResponse.model_validate`: the envelope decode used on a 2xx
body.  `extra="forbid"` makes any unknown top-level key a validation
failure. -/
def DeploymentResponse.model_validate (j : Json) : Except String DeploymentResponse :=
  match j with
  | .obj kvs =>
    if kvs.any (fun kv => !envelopeFieldKey kv.1) then
      .error "extra fields not permitted"
    else
      match lookupKey kvs "ok" with
      | some (.bool okv) =>
        match lookupKey kvs "status" with
        | some (.num st) => do
          let d ← match lookupKey kvs "data" with
                  | none => pure none
                  | some .null => pure none
                  | some dv => do
                    let u ← decodeUpsertData dv
                    pure (some u)
          let e ← match lookupKey kvs "error" with
                  | none => pure none
                  | some .null => pure none
                  | some ev => do
                    let ae ← decodeApiErrorBody ev
                    pure (some ae)
          .ok { ok := okv, status := st, data := d, error := e }
        | _ => .error "status: required int"
      | _ => .error "ok: required bool"
  | _ => .error "response body is not a mapping"

end Schemas

/-! ## http/client.py -/

/-- An HTTP response as the client observes it: status code, raw text body,
and the outcome of `response.json()` (the stdlib parse of that body, carried
as an oracle value alongside the text). -/
structure HttpResponse where
  statusCode : Nat
  bodyText : String
  bodyJson : Except String Json
deriving Repr

/-- Outcome of one `httpx` request: either an `httpx.RequestError` before
any response (DNS, connect, timeout, TLS), or a response. -/
inductive RequestOutcome where
  | requestError (message : String)
  | response (r : HttpResponse)
deriving Repr

/-- `httpx.Response.is_error`: 4xx or 5xx. -/
def isErrorStatus (s : Nat) : Bool := 400 ≤ s && s ≤ 599

/-- `ApiClient` (http/client.py): the state relevant to the claims. The
constructor strips trailing slashes from the base URL. -/
structure ApiClient where
  apiKey : String
  baseUrl : String
deriving Repr

/-- `ApiClient.__init__`: `self.base_url = base_url.rstrip("/")`. -/
def ApiClient.make (api_key base_url : String) : ApiClient :=
  { apiKey := api_key, baseUrl := rstripSlash base_url }

/-- `ApiClient._handle_request_error`: wraps the underlying transport error
in a `NetworkError` (the default message prefix is used at the only call
site). -/
def ApiClient.handle_request_error (message : String) : PyError :=
  .networkError { message := "Network error occurred: " ++ message, cause := message }

/-- `ApiClient._handle_response_error`, translated clause by clause.
Inside the `try`: `error_data = response.json()`; when that parses to a dict,
`error_data.get("error", {}).get("message", default)` — a non-dict value
under `"error"` makes the second `.get` raise `AttributeError`, which the
`except Exception` clause turns into `error_data = {"body": response.text}`
with the default message, exactly like a JSON parse failure.  Then 401/403
raise `AuthError` (cause `Exception(str(error_data))`, kept as the data
itself) and every other status raises `ApiError(error_msg, status,
error_data)`. -/
def ApiClient.handle_response_error (r : HttpResponse) : PyError :=
  let status := r.statusCode
  let defaultMsg := Json.str ("API error: " ++ toString status)
  let fallback : Json × Json := (.obj [("body", .str r.bodyText)], defaultMsg)
  let dataMsg : Json × Json :=
    match r.bodyJson with
    | .error _ => fallback
    | .ok d =>
      match d with
      | .obj kvs =>
        match lookupKey kvs "error" with
        | none => (d, defaultMsg)
        | some (.obj ekvs) =>
          match lookupKey ekvs "message" with
          | some m => (d, m)
          | none => (d, defaultMsg)
        | some _ => fallback
      | _ => (d, defaultMsg)
  if status = 401 ∨ status = 403 then
    .authError (Exceptions.AuthError.make dataMsg.2 (some dataMsg.1))
  else
    .apiError { message := dataMsg.2, statusCode := status, body := dataMsg.1 }

/-- `ApiClient._request`, after the URL/params bookkeeping: a transport
failure goes through `_handle_request_error`; an error-status response goes
through `_handle_response_error`; any other response is returned. -/
def ApiClient.request (outcome : RequestOutcome) : Except PyError HttpResponse :=
  match outcome with
  | .requestError m => .error (ApiClient.handle_request_error m)
  | .response r =>
    if isErrorStatus r.statusCode then .error (ApiClient.handle_response_error r)
    else .ok r

/-- `ApiClient.deploy_from_openapi`, given the outcome of the POST.  On a
non-error response it runs `DeploymentResponse.model_validate(response.json())`.
When `response.json()` itself raises, the `except` handler evaluates
`response.json()` again while building the `ApiError` — so the
`json.JSONDecodeError` escapes uncaught.  When the JSON is valid but the
envelope validation fails, the handler's second `response.json()` succeeds
and `ApiError("Failed to parse deployment response", status, body)` is
raised. -/
def ApiClient.deploy_from_openapi (outcome : RequestOutcome) :
    Except PyError Schemas.DeploymentResponse :=
  match ApiClient.request outcome with
  | .error e => .error e
  | .ok r =>
    match r.bodyJson with
    | .error e => .error (.jsonDecodeError e)
    | .ok d =>
      match Schemas.DeploymentResponse.model_validate d with
      | .ok resp => .ok resp
      | .error _ =>
        .error (.apiError { message := .str "Failed to parse deployment response",
                            statusCode := r.statusCode, body := d })

/-! ## core/sdk.py -/

/-- `DeploymentResult` (core/sdk.py): read-only view over a successful
response.  `created_at` keeps the server value; its `or datetime.now()`
wall-clock fallback is outside the model (no claim touches it). -/
structure DeploymentResult where
  id : String
  updated : Bool
  created_at : Option String
deriving Repr

/-- `DeploymentResult.__init__`: rejects a response with `ok` false or
missing `data` with `SpecInvalidError("Unexpected response format")` (whose
Python `details` holds the live response object, which is outside the `Json`
universe and is dropped here). -/
def DeploymentResult.make (resp : Schemas.DeploymentResponse) :
    Except PyError DeploymentResult :=
  if !resp.ok || resp.data.isNone then
    .error (.specInvalid { message := "Unexpected response format", details := none })
  else
    match resp.data with
    | some d => .ok { id := d.deployment.id, updated := d.updated,
                      created_at := d.deployment.created_at }
    | none => .error (.specInvalid { message := "Unexpected response format", details := none })

/-- The inline `openapi_spec` argument of `deploy`: a raw dict or an already
validated `OpenAPISpec` instance. -/
inductive SpecSourceArg where
  | dict (d : Json)
  | spec (s : OpenAPISpec)
deriving Repr

/-- The keyword arguments of `deploy` that the claims exercise. -/
structure DeployArgs where
  openapi_spec_path : Option String := none
  openapi_spec_url : Option String := none
  openapi_spec : Option SpecSourceArg := none
  api_key : String := ""
  base_url : Option String := none
  name : Option String := none
  auth_config : Option Json := none
  api_base_url : String := "https://api.tadata.com"
  dev : Bool := false
deriving Repr

/-- Outcome of `httpx.get(openapi_spec_url, ...)` followed by
`raise_for_status()`: any `httpx.HTTPError` (transport or status) is one
failure case; otherwise the content-type header and body text. -/
inductive FetchOutcome where
  | httpError (message : String)
  | fetched (contentType : String) (text : String)
deriving Repr

/-- The external world `deploy` interacts with, as oracles: path resolution
and file reads, `json.loads`/`yaml.safe_load`, `urllib.parse.urlparse(...).path`,
URL fetching, and the deployment POST (url, api key, body). -/
structure World where
  resolve : String → String
  readText : String → Except String String
  jsonLoads : String → Except String Json
  yamlLoads : String → Except String Json
  urlPath : String → String
  fetch : String → FetchOutcome
  transport : String → String → Json → RequestOutcome

/-- An observable I/O action of `deploy`, in order of occurrence:
a spec-file read, a spec-URL fetch, or the deployment POST (recorded with
the client's base URL, the endpoint path and the body). -/
inductive Effect where
  | fileRead (path : String)
  | urlFetch (url : String)
  | transportCall (baseUrl path : String) (body : Json)
deriving Repr

/-- `sum(1 for x in [openapi_spec_path, openapi_spec_url, openapi_spec] if x
is not None)`. -/
def sourceCount (a : DeployArgs) : Nat :=
  (if a.openapi_spec_path.isSome then 1 else 0) +
  (if a.openapi_spec_url.isSome then 1 else 0) +
  (if a.openapi_spec.isSome then 1 else 0)

/-- Spec resolution in `deploy` (the `if openapi_spec_path is not None:
... elif ... elif ... elif ...` chain), together with the I/O effects it
performs.  URL content is dispatched on the content-type header first, then
on the lowered URL path extension, defaulting to JSON; a fetch failure is
wrapped as `SpecInvalidError` carrying the URL. -/
def resolveSpec (w : World) (a : DeployArgs) : Except PyError OpenAPISpec × List Effect :=
  match a.openapi_spec_path with
  | some p =>
    ((OpenAPISpec.from_file w.resolve w.readText w.jsonLoads w.yamlLoads p).mapError .specInvalid,
     [.fileRead p])
  | none =>
  match a.openapi_spec_url with
  | some url =>
    (match w.fetch url with
     | .httpError e =>
       .error (.specInvalid { message := "Failed to fetch OpenAPI spec from URL: " ++ e,
                              details := some (.obj [("url", .str url)]) })
     | .fetched contentType text =>
       (if strContains contentType "json" then
          OpenAPISpec.from_json w.jsonLoads text
        else if strContains contentType "yaml" || strContains contentType "yml" then
          OpenAPISpec.from_yaml w.yamlLoads text
        else if strEndsWithPy (pyLower (w.urlPath url)) ".json" then
          OpenAPISpec.from_json w.jsonLoads text
        else if strEndsWithPy (pyLower (w.urlPath url)) ".yaml" ||
                strEndsWithPy (pyLower (w.urlPath url)) ".yml" then
          OpenAPISpec.from_yaml w.yamlLoads text
        else
          OpenAPISpec.from_json w.jsonLoads text).mapError .specInvalid,
     [.urlFetch url])
  | none =>
  match a.openapi_spec with
  | some (.dict d) => ((OpenAPISpec.from_dict d).mapError .specInvalid, [])
  | some (.spec s) => (.ok s, [])
  | none =>
    (.error (.valueError "Unable to obtain OpenAPI specification from provided sources"), [])

/-- The staging base URL substituted when `dev=True`. -/
def stagingUrl : String := "https://api.stage.tadata.com"

/-- The deployment endpoint path. -/
def deployPath : String := "/api/deployments/from-openapi"

/-- The `deploy` entry point (core/sdk.py), returning the result or the
escaping exception, paired with the ordered I/O effects performed.  Steps in
source order: the `dev` override of `api_base_url`; the exactly-one-source
validation; spec resolution; `MCPAuthConfig` handling (a
`pydantic.ValidationError` escapes unwrapped); client construction; request
build and POST; response mapping through `DeploymentResult`. -/
def deploy (w : World) (a : DeployArgs) : Except PyError DeploymentResult × List Effect :=
  let api_base_url := if a.dev then stagingUrl else a.api_base_url
  let n := sourceCount a
  if n = 0 then
    (.error (.valueError "One of openapi_spec_path, openapi_spec_url, or openapi_spec must be provided"), [])
  else if 1 < n then
    (.error (.valueError "Only one of openapi_spec_path, openapi_spec_url, or openapi_spec should be provided"), [])
  else
    match resolveSpec w a with
    | (.error e, tr) => (.error e, tr)
    | (.ok spec, tr) =>
      match (match a.auth_config with
             | none => Except.ok Schemas.AuthConfig.default
             | some j => Schemas.AuthConfig.model_validate j) with
      | .error e => (.error (.validationError e), tr)
      | .ok ac =>
        let client := ApiClient.make a.api_key api_base_url
        let body := Schemas.dumpUpsertDeploymentRequest spec a.name a.base_url ac
        let outcome := w.transport (client.baseUrl ++ deployPath) a.api_key body
        (match ApiClient.deploy_from_openapi outcome with
         | .error e => .error e
         | .ok resp => DeploymentResult.make resp,
         tr ++ [Effect.transportCall client.baseUrl deployPath body])

/-! ## Theorems -/

/-- C9: every `AuthError` raised by `_handle_response_error` — for an HTTP
401 and equally for an HTTP 403 response — has `status_code = 401`
(`AuthError.__init__` hard-codes `HTTPStatus.UNAUTHORIZED`), so the
distinguishing original status is not recorded in the error's status-code
attribute. -/
theorem authError_statusCode_always_401 (r : HttpResponse)
    (h : r.statusCode = 401 ∨ r.statusCode = 403) :
    ∃ a, ApiClient.handle_response_error r = .authError a ∧ a.statusCode = 401 := by
  rcases h with h | h <;>
  · simp only [ApiClient.handle_response_error, h]
    norm_num
    rfl

/-- Witness for C9: a 403 response with a non-JSON body yields an
`AuthError` whose status code is 401. -/
theorem authError_statusCode_always_401_witness :
    ∃ a, ApiClient.handle_response_error ⟨403, "denied", .error "Expecting value"⟩ = .authError a ∧
      a.statusCode = 401 :=
  authError_statusCode_always_401 ⟨403, "denied", .error "Expecting value"⟩ (Or.inr rfl)

/-- The error body `_handle_response_error` actually attaches to an
`ApiError`: the parsed JSON body, except that a body that is not valid JSON
— and equally a JSON mapping whose `"error"` key holds a non-mapping value,
which makes the `.get("message", ...)` chain raise `AttributeError` inside
the same `try` — is replaced by the wrapper `{"body": <raw text>}`. -/
def bestEffortErrorBody (r : HttpResponse) : Json :=
  match r.bodyJson with
  | .error _ => .obj [("body", .str r.bodyText)]
  | .ok d =>
    match d with
    | .obj kvs =>
      match lookupKey kvs "error" with
      | some (.obj _) => d
      | none => d
      | some _ => .obj [("body", .str r.bodyText)]
    | _ => d

/-- The top-level keys of a JSON mapping (used to exhibit that two bodies
are different mappings). -/
def topKeys : Json → List String
  | .obj kvs => kvs.map Prod.fst
  | _ => []

/-- C2 (counterexample to the claim as stated): a 400 response whose body
is the valid JSON mapping `{"error": "oops"}` does not carry the parsed
body on the `ApiError` — message extraction raises `AttributeError`
(`"oops"` has no `.get`), and the `except` clause substitutes the raw-text
wrapper `{"body": ...}` even though the body was valid JSON: the carried
body's single key is `"body"`, while the parsed body's single key is
`"error"`. -/
theorem handle_response_error_valid_json_raw_wrapped :
    ApiClient.request (.response ⟨400, "\x7b\"error\": \"oops\"\x7d",
        .ok (.obj [("error", .str "oops")])⟩)
      = .error (.apiError { message := .str "API error: 400", statusCode := 400,
                            body := .obj [("body", .str "\x7b\"error\": \"oops\"\x7d")] }) ∧
    topKeys (.obj [("body", .str "\x7b\"error\": \"oops\"\x7d")]) = ["body"] ∧
    topKeys (.obj [("error", .str "oops")]) = ["error"] :=
  ⟨rfl, rfl, rfl⟩

/-- C2 (amended): a transport-level failure maps to `NetworkError` wrapping
the underlying error; an error response with status 401 or 403 maps to
`AuthError`; an error response with any other status maps to `ApiError`
carrying that numeric status and the best-effort error body — the parsed
JSON body, falling back to the raw-text wrapper `{"body": ...}` when the
body is not valid JSON or when its `"error"` key holds a non-mapping value
(`bestEffortErrorBody`). -/
theorem request_error_mapping (m : String) (r : HttpResponse) :
    (ApiClient.request (.requestError m) =
      .error (.networkError { message := "Network error occurred: " ++ m, cause := m })) ∧
    (r.statusCode = 401 ∨ r.statusCode = 403 →
      ∃ a, ApiClient.request (.response r) = .error (.authError a)) ∧
    (isErrorStatus r.statusCode = true → r.statusCode ≠ 401 → r.statusCode ≠ 403 →
      ∃ msg, ApiClient.request (.response r) =
        .error (.apiError { message := msg, statusCode := r.statusCode,
                            body := bestEffortErrorBody r })) := by
  refine ⟨rfl, ?_, ?_⟩
  · intro h
    have herr : isErrorStatus r.statusCode = true := by
      rcases h with h | h <;> simp [isErrorStatus, h]
    have hreq : ApiClient.request (.response r) = .error (ApiClient.handle_response_error r) := by
      simp [ApiClient.request, herr]
    have hauth : ∃ a, ApiClient.handle_response_error r = .authError a := by
      rcases h with h | h <;>
      · simp only [ApiClient.handle_response_error, h]
        norm_num
    obtain ⟨a, ha⟩ := hauth
    exact ⟨a, by rw [hreq, ha]⟩
  · intro herr h401 h403
    have hcond : ¬(r.statusCode = 401 ∨ r.statusCode = 403) := by
      rintro (h | h) <;> [exact h401 h; exact h403 h]
    have hreq : ApiClient.request (.response r) = .error (ApiClient.handle_response_error r) := by
      simp [ApiClient.request, herr]
    rw [hreq]
    have hbody : ∃ msg, ApiClient.handle_response_error r =
        .apiError { message := msg, statusCode := r.statusCode, body := bestEffortErrorBody r } := by
      unfold ApiClient.handle_response_error bestEffortErrorBody
      rw [if_neg hcond]
      rcases r with ⟨s, t, bj⟩
      cases bj with
      | error e => exact ⟨_, rfl⟩
      | ok d =>
        cases d with
        | obj kvs =>
          cases hl : lookupKey kvs "error" with
          | none => simp only [hl]; exact ⟨_, rfl⟩
          | some v =>
            cases v with
            | obj ekvs =>
              cases hm : lookupKey ekvs "message" with
              | none => simp only [hl, hm]; exact ⟨_, rfl⟩
              | some mv => simp only [hl, hm]; exact ⟨_, rfl⟩
            | null => simp only [hl]; exact ⟨_, rfl⟩
            | bool b2 => simp only [hl]; exact ⟨_, rfl⟩
            | num n2 => simp only [hl]; exact ⟨_, rfl⟩
            | str s3 => simp only [hl]; exact ⟨_, rfl⟩
            | arr es2 => simp only [hl]; exact ⟨_, rfl⟩
        | null => exact ⟨_, rfl⟩
        | bool b => exact ⟨_, rfl⟩
        | num n => exact ⟨_, rfl⟩
        | str s2 => exact ⟨_, rfl⟩
        | arr es => exact ⟨_, rfl⟩
    obtain ⟨msg, hmsg⟩ := hbody
    exact ⟨msg, by rw [hmsg]⟩

/-- Witness for C2 (amended): a 500 response with a non-JSON body maps to
`ApiError` with status 500 and the raw-text wrapper body. -/
theorem request_error_mapping_witness :
    ∃ msg, ApiClient.request (.response ⟨500, "boom", .error "Expecting value"⟩) =
      .error (.apiError { message := msg, statusCode := 500,
                          body := bestEffortErrorBody ⟨500, "boom", .error "Expecting value"⟩ }) :=
  (request_error_mapping "m" ⟨500, "boom", .error "Expecting value"⟩).2.2 (by decide)
    (by decide) (by decide)

/-- C10: a 2xx response whose JSON body is a mapping with any top-level key
outside `{ok, status, data, error}` fails envelope validation
(`extra="forbid"`), and `deploy_from_openapi` turns it into
`ApiError("Failed to parse deployment response", status, body)` rather than
accepting it. -/
theorem envelope_forbids_extra_top_level_keys (r : HttpResponse)
    (kvs : List (String × Json)) (k : String)
    (hlo : 200 ≤ r.statusCode) (hhi : r.statusCode ≤ 299)
    (hbody : r.bodyJson = .ok (.obj kvs))
    (hk : k ∈ kvs.map Prod.fst) (hout : Schemas.envelopeFieldKey k = false) :
    (∃ e, Schemas.DeploymentResponse.model_validate (.obj kvs) = .error e) ∧
    ApiClient.deploy_from_openapi (.response r)
      = .error (.apiError { message := .str "Failed to parse deployment response",
                            statusCode := r.statusCode, body := .obj kvs }) := by
  have hnoterr : isErrorStatus r.statusCode = false := by
    simp only [isErrorStatus, Bool.and_eq_false_iff]
    left
    simp only [decide_eq_false_iff_not, not_le]
    omega
  have hextra : kvs.any (fun kv => !Schemas.envelopeFieldKey kv.1) = true := by
    rw [List.any_eq_true]
    obtain ⟨kv, hkv, hfst⟩ := List.mem_map.mp hk
    exact ⟨kv, hkv, by rw [hfst, hout]; rfl⟩
  have hval : Schemas.DeploymentResponse.model_validate (.obj kvs) =
      .error "extra fields not permitted" := by
    unfold Schemas.DeploymentResponse.model_validate
    simp [hextra]
  refine ⟨⟨_, hval⟩, ?_⟩
  unfold ApiClient.deploy_from_openapi
  rw [show ApiClient.request (.response r) = .ok r by simp [ApiClient.request, hnoterr]]
  dsimp only
  rw [hbody]
  dsimp only
  rw [hval]

/-- Witness for C10: a 201 body `{"ok": true, "status": 201, "extra": null}`
is rejected by envelope validation and surfaces as a parse-failure
`ApiError` with status 201. -/
theorem envelope_forbids_extra_top_level_keys_witness :
    (∃ e, Schemas.DeploymentResponse.model_validate
        (.obj [("ok", .bool true), ("status", .num 201), ("extra", .null)]) = .error e) ∧
    ApiClient.deploy_from_openapi (.response ⟨201, "resp",
        .ok (.obj [("ok", .bool true), ("status", .num 201), ("extra", .null)])⟩)
      = .error (.apiError { message := .str "Failed to parse deployment response",
                            statusCode := 201,
                            body := .obj [("ok", .bool true), ("status", .num 201), ("extra", .null)] }) :=
  envelope_forbids_extra_top_level_keys
    ⟨201, "resp", .ok (.obj [("ok", .bool true), ("status", .num 201), ("extra", .null)])⟩
    [("ok", .bool true), ("status", .num 201), ("extra", .null)] "extra"
    (by decide) (by decide) rfl (by simp) rfl

/-- C3: a document whose `openapi` field is a string not starting with
`"3."` never yields a Specification: `from_dict` fails, and so do
`from_json`, `from_yaml` and `from_file` whenever their parse stage
produces that document.  By the return type, all failures are
`SpecInvalidError`. -/
theorem spec_version_gate (kvs : List (String × Json)) (v : String)
    (hv : lookupKey kvs "openapi" = some (.str v))
    (h3 : strStartsWith v "3." = false) :
    (∃ e, OpenAPISpec.from_dict (.obj kvs) = .error e) ∧
    (∀ jl s, jl s = .ok (.obj kvs) → ∃ e, OpenAPISpec.from_json jl s = .error e) ∧
    (∀ yl s, yl s = .ok (.obj kvs) → ∃ e, OpenAPISpec.from_yaml yl s = .error e) ∧
    (∀ resolve rd jl yl p c, rd (resolve p) = .ok c →
      ((pyLower (pathSuffix (resolve p)) = ".json" ∧ jl c = .ok (.obj kvs)) ∨
       ((pyLower (pathSuffix (resolve p)) = ".yaml" ∨ pyLower (pathSuffix (resolve p)) = ".yml") ∧
         yl c = .ok (.obj kvs))) →
      ∃ e, OpenAPISpec.from_file resolve rd jl yl p = .error e) := by
  have hd : ∃ e, OpenAPISpec.from_dict (.obj kvs) = .error e := by
    unfold OpenAPISpec.from_dict
    dsimp only
    rw [hv]
    simp [h3]
  have hj : ∀ jl s, jl s = .ok (.obj kvs) → ∃ e, OpenAPISpec.from_json jl s = .error e := by
    intro jl s hs
    unfold OpenAPISpec.from_json
    rw [hs]
    exact hd
  have hy : ∀ yl s, yl s = .ok (.obj kvs) → ∃ e, OpenAPISpec.from_yaml yl s = .error e := by
    intro yl s hs
    unfold OpenAPISpec.from_yaml
    rw [hs]
    exact hd
  refine ⟨hd, hj, hy, ?_⟩
  intro resolve rd jl yl p c hrd hdisp
  unfold OpenAPISpec.from_file
  dsimp only
  rw [hrd]
  dsimp only
  rcases hdisp with ⟨hsuf, hjl⟩ | ⟨hsuf, hyl⟩
  · rw [hsuf]
    simp only [if_pos rfl]
    exact hj jl c hjl
  · rcases hsuf with hsuf | hsuf <;> rw [hsuf] <;> norm_num <;> exact hy yl c hyl

/-- Witness for C3: the mapping `{"openapi": "2.0.0"}` is rejected by
`from_dict`. -/
theorem spec_version_gate_witness :
    ∃ e, OpenAPISpec.from_dict (.obj [("openapi", .str "2.0.0")]) = .error e :=
  (spec_version_gate [("openapi", .str "2.0.0")] "2.0.0" rfl (by decide)).1

/-- C7: for a structurally valid document (string `openapi` starting
`"3."`, decodable `info`, mapping `paths`), building the Specification from
the mapping, from a JSON string that parses to that mapping, and from a
YAML string that parses to that mapping produces the same Specification
value (hence field-for-field equality). -/
theorem spec_sources_agree (kvs p : List (String × Json)) (v : String) (i : Json)
    (info : OpenAPIInfo) (jl yl : String → Except String Json) (s t : String)
    (hv : lookupKey kvs "openapi" = some (.str v)) (h3 : strStartsWith v "3." = true)
    (hi : lookupKey kvs "info" = some i) (hinfo : decodeInfo i = some info)
    (hp : lookupKey kvs "paths" = some (.obj p))
    (hjson : jl s = .ok (.obj kvs)) (hyaml : yl t = .ok (.obj kvs)) :
    ∃ spec, OpenAPISpec.from_dict (.obj kvs) = .ok spec ∧
      OpenAPISpec.from_json jl s = .ok spec ∧ OpenAPISpec.from_yaml yl t = .ok spec := by
  have hd : OpenAPISpec.from_dict (.obj kvs) = .ok
      { openapi := v, info := info, paths := p,
        extra := kvs.filter (fun kv => !specFieldKey kv.1) } := by
    unfold OpenAPISpec.from_dict
    dsimp only
    rw [hv]
    dsimp only
    rw [if_pos h3]
    rw [hi]
    dsimp only
    rw [hinfo]
    dsimp only
    rw [hp]
  refine ⟨_, hd, ?_, ?_⟩
  · unfold OpenAPISpec.from_json
    rw [hjson]
    exact hd
  · unfold OpenAPISpec.from_yaml
    rw [hyaml]
    exact hd

/-- Witness for C7: a concrete document with an extra top-level field gives
the same Specification by all three construction routes. -/
theorem spec_sources_agree_witness :
    ∃ spec, OpenAPISpec.from_dict (.obj [("openapi", .str "3.0.0"),
        ("info", .obj [("title", .str "T"), ("version", .str "1.0.0")]),
        ("paths", .obj [("/x", .null)]), ("x-extra", .num 7)]) = .ok spec ∧
      OpenAPISpec.from_json (fun s => if s = "J" then .ok (.obj [("openapi", .str "3.0.0"),
        ("info", .obj [("title", .str "T"), ("version", .str "1.0.0")]),
        ("paths", .obj [("/x", .null)]), ("x-extra", .num 7)]) else .error "Expecting value") "J" = .ok spec ∧
      OpenAPISpec.from_yaml (fun s => if s = "Y" then .ok (.obj [("openapi", .str "3.0.0"),
        ("info", .obj [("title", .str "T"), ("version", .str "1.0.0")]),
        ("paths", .obj [("/x", .null)]), ("x-extra", .num 7)]) else .error "bad yaml") "Y" = .ok spec :=
  spec_sources_agree _ _ "3.0.0" _ { title := "T", version := "1.0.0", description := none }
    _ _ "J" "Y" rfl (by decide) rfl rfl rfl rfl rfl

/-- Decoding the serialized `OpenAPIInfo` model gives back the same value. -/
theorem decodeInfo_dumpInfo (i : OpenAPIInfo) : decodeInfo (dumpInfo i) = some i := by
  cases i with
  | mk t v d => cases d <;> rfl

/-- Looking up the key bound at the head of the association list. -/
theorem lookupKey_cons_eq (k : String) (v : Json) (rest : List (String × Json)) :
    lookupKey ((k, v) :: rest) k = some v := by
  simp [lookupKey]

/-- Lookup skips a head entry with a different key. -/
theorem lookupKey_cons_ne (q k : String) (v : Json) (rest : List (String × Json))
    (h : q ≠ k) : lookupKey ((q, v) :: rest) k = lookupKey rest k := by
  simp [lookupKey, h]

/-- C8: a Specification built by `from_dict`, re-serialized with
`model_dump` (`dumpSpec`) and reparsed by `from_dict`, yields the same
Specification value — `openapi`, `info` and `paths` are all equal and the
preserved extra top-level fields come back unchanged. -/
theorem from_dict_roundtrip (d : Json) (spec : OpenAPISpec)
    (h : OpenAPISpec.from_dict d = .ok spec) :
    OpenAPISpec.from_dict (dumpSpec spec) = .ok spec := by
  cases d with
  | obj kvs =>
    unfold OpenAPISpec.from_dict at h
    dsimp only at h
    cases hv : lookupKey kvs "openapi" with
    | none => rw [hv] at h; exact absurd h (by simp)
    | some ov =>
      rw [hv] at h
      cases ov with
      | str v =>
        dsimp only at h
        cases h3 : strStartsWith v "3." with
        | false => rw [h3] at h; exact absurd h (by simp)
        | true =>
          rw [if_pos h3] at h
          cases hi : lookupKey kvs "info" with
          | none => rw [hi] at h; exact absurd h (by simp)
          | some i =>
            rw [hi] at h
            dsimp only at h
            cases hinfo : decodeInfo i with
            | none => rw [hinfo] at h; exact absurd h (by simp)
            | some info =>
              rw [hinfo] at h
              dsimp only at h
              cases hp : lookupKey kvs "paths" with
              | none => rw [hp] at h; exact absurd h (by simp)
              | some pv =>
                rw [hp] at h
                cases pv with
                | obj p =>
                  dsimp only at h
                  rw [Except.ok.injEq] at h
                  subst h
                  unfold dumpSpec OpenAPISpec.from_dict
                  simp only [List.cons_append, List.nil_append]
                  try dsimp only
                  rw [lookupKey_cons_eq]
                  try dsimp only
                  rw [if_pos h3]
                  rw [lookupKey_cons_ne _ _ _ _ (by decide), lookupKey_cons_eq]
                  try dsimp only
                  rw [decodeInfo_dumpInfo]
                  try dsimp only
                  rw [lookupKey_cons_ne _ _ _ _ (by decide),
                    lookupKey_cons_ne _ _ _ _ (by decide), lookupKey_cons_eq]
                  try dsimp only
                  rw [Except.ok.injEq, OpenAPISpec.mk.injEq]
                  refine ⟨rfl, rfl, rfl, ?_⟩
                  simp only [List.filter_cons]
                  norm_num [specFieldKey]
                | null => exact absurd h (by simp)
                | bool b => exact absurd h (by simp)
                | num n => exact absurd h (by simp)
                | str s => exact absurd h (by simp)
                | arr es => exact absurd h (by simp)
      | null => exact absurd h (by simp)
      | bool b => exact absurd h (by simp)
      | num n => exact absurd h (by simp)
      | arr es => exact absurd h (by simp)
      | obj o => exact absurd h (by simp)
  | null => exact absurd h (by simp [OpenAPISpec.from_dict])
  | bool b => exact absurd h (by simp [OpenAPISpec.from_dict])
  | num n => exact absurd h (by simp [OpenAPISpec.from_dict])
  | str s => exact absurd h (by simp [OpenAPISpec.from_dict])
  | arr es => exact absurd h (by simp [OpenAPISpec.from_dict])

/-- Witness for C8: round-trip of a concrete Specification with one extra
top-level field. -/
theorem from_dict_roundtrip_witness :
    OpenAPISpec.from_dict (dumpSpec
      { openapi := "3.1.0", info := { title := "T", version := "1.0.0", description := none },
        paths := [("/x", .null)], extra := [("x-extra", .num 7)] })
      = .ok { openapi := "3.1.0", info := { title := "T", version := "1.0.0", description := none },
              paths := [("/x", .null)], extra := [("x-extra", .num 7)] } :=
  from_dict_roundtrip (.obj [("openapi", .str "3.1.0"),
    ("info", .obj [("title", .str "T"), ("version", .str "1.0.0")]),
    ("paths", .obj [("/x", .null)]), ("x-extra", .num 7)]) _ rfl

/-- C5 (amended): `from_file` dispatches on the pathlib suffix of the
resolved path: suffix lowering to `.json` parses the content as JSON,
`.yaml`/`.yml` as YAML, any other suffix fails with `SpecInvalid` carrying
the resolved path, and a read failure fails with `SpecInvalid` carrying the
resolved path.  The pathlib suffix is empty when the final component's only
dot is its first character, so a dotfile path such as `/x/.json` falls into
the unsupported-extension case even though the path ends in `.json`. -/
theorem from_file_dispatch (resolve : String → String)
    (rd : String → Except String String) (jl yl : String → Except String Json)
    (p c : String) :
    (rd (resolve p) = .ok c → pyLower (pathSuffix (resolve p)) = ".json" →
      OpenAPISpec.from_file resolve rd jl yl p = OpenAPISpec.from_json jl c) ∧
    (rd (resolve p) = .ok c →
      (pyLower (pathSuffix (resolve p)) = ".yaml" ∨ pyLower (pathSuffix (resolve p)) = ".yml") →
      OpenAPISpec.from_file resolve rd jl yl p = OpenAPISpec.from_yaml yl c) ∧
    (rd (resolve p) = .ok c → pyLower (pathSuffix (resolve p)) ≠ ".json" →
      pyLower (pathSuffix (resolve p)) ≠ ".yaml" → pyLower (pathSuffix (resolve p)) ≠ ".yml" →
      OpenAPISpec.from_file resolve rd jl yl p =
        .error { message := "Unsupported file extension: " ++ pathSuffix (resolve p) ++
                   ". Only .json, .yaml, and .yml files are supported.",
                 details := some (.obj [("file_path", .str (resolve p))]) }) ∧
    (∀ err, rd (resolve p) = .error err →
      OpenAPISpec.from_file resolve rd jl yl p =
        .error { message := "Failed to read file: " ++ err,
                 details := some (.obj [("file_path", .str (resolve p))]) }) := by
  refine ⟨?_, ?_, ?_, ?_⟩
  · intro hrd hsuf
    unfold OpenAPISpec.from_file
    dsimp only
    rw [hrd]
    dsimp only
    rw [if_pos hsuf]
  · intro hrd hsuf
    have hne : pyLower (pathSuffix (resolve p)) ≠ ".json" := by
      rcases hsuf with h | h <;> rw [h] <;> decide
    unfold OpenAPISpec.from_file
    dsimp only
    rw [hrd]
    dsimp only
    rw [if_neg hne, if_pos hsuf]
  · intro hrd h1 h2 h3
    unfold OpenAPISpec.from_file
    dsimp only
    rw [hrd]
    dsimp only
    rw [if_neg h1, if_neg (by rintro (h | h) <;> [exact h2 h; exact h3 h])]
  · intro err hrd
    unfold OpenAPISpec.from_file
    dsimp only
    rw [hrd]

/-- Witness for C5 (amended): a path with suffix `.JSON` (case-insensitive
match) is parsed as JSON. -/
theorem from_file_dispatch_witness :
    OpenAPISpec.from_file id (fun _ => .ok "stub") (fun _ => .error "Expecting value")
        (fun _ => .error "unused") "/y/good.JSON"
      = OpenAPISpec.from_json (fun _ => .error "Expecting value") "stub" :=
  (from_file_dispatch id (fun _ => .ok "stub") (fun _ => .error "Expecting value")
    (fun _ => .error "unused") "/y/good.JSON" "stub").1 rfl (by decide)

/-- The text of a well-formed OpenAPI 3.0.0 JSON document. -/
def dotfileSpecText : String :=
  "\x7b\"openapi\": \"3.0.0\", \"info\": \x7b\"title\": \"T\", \"version\": \"1.0.0\"\x7d, \"paths\": \x7b\x7d\x7d"

/-- The mapping `json.loads` produces for `dotfileSpecText`. -/
def dotfileSpecDoc : Json :=
  .obj [("openapi", .str "3.0.0"),
        ("info", .obj [("title", .str "T"), ("version", .str "1.0.0")]),
        ("paths", .obj [])]

/-- A `json.loads` oracle that parses exactly `dotfileSpecText`. -/
def dotfileJsonLoads : String → Except String Json :=
  fun s => if s = dotfileSpecText then .ok dotfileSpecDoc else .error "Expecting value"

/-- C5 (counterexample to the claim as stated): the path `/x/.json` ends in
`.json`, and its content is a JSON document that `from_json` accepts — yet
`from_file` fails with the unsupported-extension `SpecInvalid`, because
pathlib's suffix of the component `.json` is empty. -/
theorem from_file_dotfile_counterexample :
    strEndsWithPy (pyLower "/x/.json") ".json" = true ∧
    OpenAPISpec.from_json dotfileJsonLoads dotfileSpecText
      = .ok { openapi := "3.0.0", info := { title := "T", version := "1.0.0", description := none },
              paths := [], extra := [] } ∧
    OpenAPISpec.from_file id (fun _ => .ok dotfileSpecText) dotfileJsonLoads
        (fun _ => .error "unused") "/x/.json"
      = .error { message := "Unsupported file extension: . Only .json, .yaml, and .yml files are supported.",
                 details := some (.obj [("file_path", .str "/x/.json")]) } :=
  ⟨by decide, rfl, rfl⟩

/-- A world whose oracles all fail; only needed to instantiate `deploy` at
inputs that never reach them. -/
def trivialWorld : World :=
  { resolve := id, readText := fun _ => .error "No such file or directory",
    jsonLoads := fun _ => .error "Expecting value",
    yamlLoads := fun _ => .error "could not determine a constructor",
    urlPath := id, fetch := fun _ => .httpError "unreachable",
    transport := fun _ _ _ => .requestError "unreachable" }

/-- C1: `deploy` with zero spec sources fails with the `ValueError` whose
message contains "must be provided", with no I/O performed; `deploy` with
two or more sources fails with the `ValueError` whose message says "Only
one of ... should be provided" (containing "only one of" up to ASCII case —
the message begins the sentence, so the quoted fragment is capitalized),
again with no I/O performed.  The empty effect trace covers file reads, URL
fetches and transport invocations alike. -/
theorem deploy_exactly_one_source (w : World) (a : DeployArgs) :
    (sourceCount a = 0 →
      deploy w a = (.error (.valueError
        "One of openapi_spec_path, openapi_spec_url, or openapi_spec must be provided"), []) ∧
      strContains "One of openapi_spec_path, openapi_spec_url, or openapi_spec must be provided"
        "must be provided" = true) ∧
    (2 ≤ sourceCount a →
      deploy w a = (.error (.valueError
        "Only one of openapi_spec_path, openapi_spec_url, or openapi_spec should be provided"), []) ∧
      strContains
        (pyLower "Only one of openapi_spec_path, openapi_spec_url, or openapi_spec should be provided")
        "only one of" = true) := by
  constructor
  · intro h
    refine ⟨?_, by decide⟩
    unfold deploy
    rw [if_pos h]
  · intro h
    have h0 : ¬ sourceCount a = 0 := by omega
    have h1 : 1 < sourceCount a := by omega
    refine ⟨?_, by decide⟩
    unfold deploy
    rw [if_neg h0, if_pos h1]

/-- Witness for C1: `deploy` with no source at all fails before any I/O. -/
theorem deploy_exactly_one_source_witness :
    deploy trivialWorld { api_key := "k" } = (.error (.valueError
      "One of openapi_spec_path, openapi_spec_url, or openapi_spec must be provided"), []) ∧
    strContains "One of openapi_spec_path, openapi_spec_url, or openapi_spec must be provided"
      "must be provided" = true :=
  (deploy_exactly_one_source trivialWorld { api_key := "k" }).1 rfl

/-- Spec resolution performs only file-read and URL-fetch effects, never a
transport call. -/
theorem resolveSpec_no_transport (w : World) (a : DeployArgs) (u pth : String) (b : Json) :
    Effect.transportCall u pth b ∉ (resolveSpec w a).2 := by
  unfold resolveSpec
  cases hp : a.openapi_spec_path with
  | some p => simp
  | none =>
    cases hu : a.openapi_spec_url with
    | some url => simp
    | none =>
      cases hs : a.openapi_spec with
      | some arg => cases arg <;> simp
      | none => simp

/-- C6: when the `dev` flag is set, every deployment POST `deploy` performs
uses the fixed staging endpoint `https://api.stage.tadata.com` as the API
service base URL, regardless of the `api_base_url` argument (which the
`dev` branch overwrites before the client is built). -/
theorem deploy_dev_uses_staging (w : World) (a : DeployArgs) (hdev : a.dev = true)
    (u pth : String) (b : Json)
    (hmem : Effect.transportCall u pth b ∈ (deploy w a).2) :
    u = stagingUrl := by
  have hres := resolveSpec_no_transport w a u pth b
  rcases hcase : deploy w a with ⟨res, tr⟩
  rw [hcase] at hmem
  dsimp only at hmem
  simp only [deploy] at hcase
  split at hcase
  · cases hcase
    simp at hmem
  · split at hcase
    · cases hcase
      simp at hmem
    · split at hcase
      · rename_i e tr2 heq
        cases hcase
        rw [heq] at hres
        exact absurd hmem hres
      · rename_i spec tr2 heq
        split at hcase
        · cases hcase
          rw [heq] at hres
          exact absurd hmem hres
        · cases hcase
          rw [heq] at hres
          dsimp only at hres
          rw [List.mem_append] at hmem
          rcases hmem with hmem | hmem
          · exact absurd hmem hres
          · rw [List.mem_singleton] at hmem
            try rw [hdev] at hmem
            injection hmem with hu hp2 hb2

/-- C4 (failing input): a 2xx response whose body is not valid JSON does
not produce an `ApiError` — the `except` handler in `deploy_from_openapi`
evaluates `response.json()` again while constructing the `ApiError`, so the
`json.JSONDecodeError` escapes uncaught. -/
theorem deploy_from_openapi_nonjson_2xx_escapes :
    ApiClient.deploy_from_openapi
        (.response ⟨200, "not json", .error "Expecting value: line 1 column 1 (char 0)"⟩)
      = .error (.jsonDecodeError "Expecting value: line 1 column 1 (char 0)") := rfl

/-- A Specification instance used to drive a full deployment. -/
def devSpec : OpenAPISpec :=
  { openapi := "3.0.0", info := { title := "T", version := "1.0.0", description := none },
    paths := [], extra := [] }

/-- A world whose transport answers every POST with a successful 201
deployment envelope. -/
def devWorld : World :=
  { trivialWorld with transport := fun _ _ _ => .response ⟨201, "envelope",
      .ok (.obj [("ok", .bool true), ("status", .num 201),
                 ("data", .obj [("updated", .bool false),
                                ("deployment", .obj [("id", .str "d1")])])])⟩ }

/-- Deploy arguments with `dev` set and an explicitly supplied production
base URL, which the staging override must win over. -/
def devArgs : DeployArgs :=
  { openapi_spec := some (.spec devSpec), api_key := "k",
    api_base_url := "https://example.com", dev := true }

/-- Witness for C6: a concrete dev-mode deployment, with
`api_base_url = "https://example.com"` explicitly supplied, performs its
POST against the staging base URL. -/
theorem deploy_dev_uses_staging_witness : stagingUrl = stagingUrl :=
  deploy_dev_uses_staging devWorld devArgs rfl stagingUrl deployPath
    (Schemas.dumpUpsertDeploymentRequest devSpec none none Schemas.AuthConfig.default)
    (by
      have h : (deploy devWorld devArgs).2 = [Effect.transportCall stagingUrl deployPath
          (Schemas.dumpUpsertDeploymentRequest devSpec none none Schemas.AuthConfig.default)] := rfl
      rw [h]
      exact List.mem_singleton.mpr rfl)
